import Mathlib

/-!
Verification of the classroom-scheduling and facility-location optimization
apps.  The scheduling model's decision grid, constraint families, objective and
solution projection are embedded as Lean functions over finite index types;
the claims of the specification are then proved or refuted against these
definitions.
-/

namespace ClassSched

/-! ## Parameter-set construction: room compatibility tiers

Embeds the compatibility computation of `generate_data` (src/class.py,
lines 86-105).  Room types are the numbers 0-3; 0 is the standard type.
-/

/-- Room compatibility for one (course, classroom) pair, as computed in
`generate_data`: `classroom_specialization` is the 0-100 control,
`courseType` is `course_room_type[c]`, `roomType` is `room_type[r]`.
Returns 1 (compatible) or 0 (incompatible). -/
def room_compat_value (classroom_specialization courseType roomType : ℕ) : ℕ :=
  if classroom_specialization ≤ 20 then
    1
  else if classroom_specialization ≤ 60 then
    if courseType = 0 ∨ roomType = 0 ∨ courseType = roomType then 1 else 0
  else
    if courseType = roomType then 1 else 0

/-! ## Solution projection (src/class.py, lines 272-302)

The solver hands back a rational value for every (course, room, day, slot)
entry; the projector emits a record for an entry when its value is
strictly greater than 0.5, resolves the teaching professor as the first
professor in iteration order assigned to the course, and computes three
derived metrics (only when the emitted record list is nonempty).
-/

/-- One solved decision-grid entry together with the attributes copied into
an emitted record: course / room / day / slot indices, the solved variable
value, the course enrollment and the room capacity. -/
structure SolvedEntry where
  course : ℕ
  room : ℕ
  day : ℕ
  slot : ℕ
  value : ℚ
  students : ℕ
  roomCapacity : ℕ
  deriving DecidableEq, Repr

/-- The extraction filter of the run-optimization handler (line 277): an
entry produces a schedule record exactly when its solved value is `> 0.5`. -/
def extract_schedule (entries : List SolvedEntry) : List SolvedEntry :=
  entries.filter (fun e => decide ((1 : ℚ) / 2 < e.value))

/-- A solved entry whose value is exactly one half, at the boundary of the
extraction threshold. -/
def halfEntry : SolvedEntry :=
  { course := 0, room := 0, day := 0, slot := 0, value := 1 / 2,
    students := 30, roomCapacity := 50 }

/-- Professor resolution (line 279): the first professor `p` in the
`professors` list with `prof_course_assignments[(p, c)] == 1`, `none` when
no professor is assigned to the course. -/
def find_professor (professors : List ℕ) (assign : ℕ → ℕ → ℕ) (c : ℕ) :
    Option ℕ :=
  professors.find? (fun p => assign p c == 1)

/-- The three summary metrics displayed for a nonempty schedule
(lines 297-302). -/
structure Metrics where
  total_sessions : ℕ
  preferred_period_pct : ℚ
  avg_capacity_utilization : ℚ
  deriving Repr

/-- Metric computation (lines 293-302): metrics are only computed inside the
`if schedule_data:` branch, so an empty record list yields no metrics
(`none`, the "No feasible schedule found" warning path).  `isPref c d t`
says whether `(d, t)` is in course `c`'s preferred-period set. -/
def compute_metrics (isPref : ℕ → ℕ → ℕ → Bool) (records : List SolvedEntry) :
    Option Metrics :=
  if records.isEmpty then
    none
  else
    some
      { total_sessions := records.length
        preferred_period_pct :=
          if records.length > 0 then
            ((records.filter (fun e => isPref e.course e.day e.slot)).length : ℚ)
              / (records.length : ℚ) * 100
          else 0
        avg_capacity_utilization :=
          ((records.map (fun e => e.students)).sum : ℚ)
            / ((records.map (fun e => e.roomCapacity)).sum : ℚ) * 100 }

/-! ## Solver-status handling (src/class.py, lines 264-269 and 399-402) -/

/-- Modelled from the spec: the four-outcome status contract of the external
solver adapter (spec section 4.2) — the solve call's outcome as handed back to
the run-optimization handler.  The solving engine itself is outside the
repository sources. -/
inductive SolverOutcome where
  | optimal
  | infeasible
  | timeLimit
  | engineError
  deriving DecidableEq, Repr

/-- Modelled from the spec: whether `results.solver.status == SolverStatus.ok`
holds for the outcome.  Per the adapter contract (spec section 4.2) only an
optimal termination reports the `ok` status; infeasible, time-limit and
engine-error terminations do not. -/
def solver_status_ok : SolverOutcome → Bool
  | SolverOutcome.optimal => true
  | SolverOutcome.infeasible => false
  | SolverOutcome.timeLimit => false
  | SolverOutcome.engineError => false

/-- The three user-visible reports of the scheduling run-optimization
handler: success with the emitted records (line 269 onward), the
"No feasible schedule found" warning (line 400), and the "Optimization
failed" error (line 402). -/
inductive ScheduleReport where
  | success (records : List SolvedEntry)
  | warnNoSchedule
  | errorFailed
  deriving DecidableEq, Repr

/-- The scheduling run-optimization flow (lines 264-269, 293, 399-402):
extraction and display happen only when the solver status is `ok`; an empty
extraction gives the warning branch; a non-`ok` status gives the error
branch. -/
def run_scheduling (outcome : SolverOutcome) (entries : List SolvedEntry) :
    ScheduleReport :=
  if solver_status_ok outcome then
    let records := extract_schedule entries
    if records.isEmpty then ScheduleReport.warnNoSchedule
    else ScheduleReport.success records
  else
    ScheduleReport.errorFailed

/-! ## The scheduling model (src/class.py, lines 135-253)

The Pyomo model of `solve_scheduling_optimization` is embedded over finite
index types: `C` courses, `R` classrooms, `D` days, `T` time slots and `P`
professors.  A schedule is the decision grid
`Schedule : C → R → D → T → ℕ` restricted to binary values; the seven
constraint families and the objective are translated term by term.
-/

/-- The immutable parameter set consumed by the model builder: required
session counts, enrollments, capacities and the 0/1-valued compatibility,
professor-assignment, availability and period-preference tables. -/
structure Params (C R D T P : Type*) where
  courseSessions : C → ℕ
  enrollment : C → ℕ
  capacity : R → ℕ
  roomCompat : C → R → ℕ
  profAssign : P → C → ℕ
  profAvail : P → D → T → ℕ
  periodPref : C → D → T → ℕ

section Model

variable {C R D T P : Type*} [Fintype C] [Fintype R] [Fintype D] [Fintype T]
  [Fintype P]

/-- The `domain=pyo.Binary` restriction on the decision grid (line 164). -/
def binary_domain (x : C → R → D → T → ℕ) : Prop :=
  ∀ c r d t, x c r d t ≤ 1

/-- Constraint family `OneRoomPerPeriod` (lines 200-201): a course is
scheduled in at most one room per (day, slot). -/
def one_room_per_period_rule (x : C → R → D → T → ℕ) (c : C) (d : D) (t : T) :
    Prop :=
  (∑ r : R, x c r d t) ≤ 1

/-- Constraint family `OneCoursePerRoom` (lines 207-208): a room hosts at
most one course per (day, slot). -/
def one_course_per_room_rule (x : C → R → D → T → ℕ) (r : R) (d : D) (t : T) :
    Prop :=
  (∑ c : C, x c r d t) ≤ 1

/-- Constraint family `CourseSessionsConstraint` (lines 214-216): each
course's total scheduled count equals (`==`) its required session count. -/
def course_sessions_rule (ps : Params C R D T P) (x : C → R → D → T → ℕ)
    (c : C) : Prop :=
  (∑ r : R, ∑ d : D, ∑ t : T, x c r d t) = ps.courseSessions c

/-- Constraint family `RoomCapacityConstraint` (lines 221-222). -/
def room_capacity_rule (ps : Params C R D T P) (x : C → R → D → T → ℕ)
    (c : C) (r : R) (d : D) (t : T) : Prop :=
  ps.enrollment c * x c r d t ≤ ps.capacity r

/-- Constraint family `ProfScheduleConstraint` (lines 228-230): a professor
teaches at most one assigned course per (day, slot). -/
def prof_schedule_rule (ps : Params C R D T P) (x : C → R → D → T → ℕ)
    (p : P) (d : D) (t : T) : Prop :=
  (∑ c : C, ∑ r : R, ps.profAssign p c * x c r d t) ≤ 1

/-- Constraint family `ProfAvailabilityConstraint` (lines 236-243): when
professor `p` teaches course `c` the course may only run in periods where
`p` is available; otherwise the constraint is skipped
(`pyo.Constraint.Skip`), embedded as the trivially true proposition. -/
def prof_availability_rule (ps : Params C R D T P) (x : C → R → D → T → ℕ)
    (p : P) (c : C) (d : D) (t : T) : Prop :=
  if ps.profAssign p c = 1 then
    (∑ r : R, x c r d t) ≤ ps.profAvail p d t
  else
    True

/-- Constraint family `CompatibilityConstraint` (lines 249-250). -/
def compatibility_rule (ps : Params C R D T P) (x : C → R → D → T → ℕ)
    (c : C) (r : R) (d : D) (t : T) : Prop :=
  x c r d t ≤ ps.roomCompat c r

/-- An accepted solution of the model: a binary decision grid satisfying
every instantiation of the seven constraint families. -/
def accepted (ps : Params C R D T P) (x : C → R → D → T → ℕ) : Prop :=
  binary_domain x ∧
  (∀ c d t, one_room_per_period_rule x c d t) ∧
  (∀ r d t, one_course_per_room_rule x r d t) ∧
  (∀ c, course_sessions_rule ps x c) ∧
  (∀ c r d t, room_capacity_rule ps x c r d t) ∧
  (∀ p d t, prof_schedule_rule ps x p d t) ∧
  (∀ p c d t, prof_availability_rule ps x p c d t) ∧
  (∀ c r d t, compatibility_rule ps x c r d t)

/-- Total number of scheduled sessions of course `c` (objective lines
181-186). -/
def sessions_scheduled (x : C → R → D → T → ℕ) (c : C) : ℕ :=
  ∑ r : R, ∑ d : D, ∑ t : T, x c r d t

/-- Objective term 1 (lines 169-172): scheduled sessions falling in the
course's preferred periods. -/
def preferred_periods_score (ps : Params C R D T P)
    (x : C → R → D → T → ℕ) : ℕ :=
  ∑ c : C, ∑ r : R, ∑ d : D, ∑ t : T, ps.periodPref c d t * x c r d t

/-- Objective term 2 (lines 175-178): scheduled sessions in compatible
rooms. -/
def room_compatibility_score (ps : Params C R D T P)
    (x : C → R → D → T → ℕ) : ℕ :=
  ∑ c : C, ∑ r : R, ∑ d : D, ∑ t : T, ps.roomCompat c r * x c r d t

/-- Objective term 3 (lines 188-191): a bonus of 100 for each course whose
scheduled count reaches its required session count. -/
def sessions_met_score (ps : Params C R D T P)
    (x : C → R → D → T → ℕ) : ℕ :=
  ∑ c : C, if ps.courseSessions c ≤ sessions_scheduled x c then 100 else 0

/-- The maximized objective (line 193): the sum of the three terms. -/
def objective_rule (ps : Params C R D T P) (x : C → R → D → T → ℕ) : ℕ :=
  preferred_periods_score ps x + room_compatibility_score ps x +
    sessions_met_score ps x

/-- The set of (room, day, slot) triples at which course `c`'s decision
variable equals 1. -/
def scheduled_triples (x : C → R → D → T → ℕ) (c : C) :
    Finset (R × D × T) :=
  Finset.univ.filter fun q => x c q.1 q.2.1 q.2.2 = 1

end Model

/-! ### A concrete accepted instance, used to witness the invariant
theorems: one course needing one session, one room, one day, one slot, one
professor teaching the course and available, the single entry scheduled. -/

/-- A one-of-everything parameter set. -/
def exParams : Params (Fin 1) (Fin 1) (Fin 1) (Fin 1) (Fin 1) where
  courseSessions := fun _ => 1
  enrollment := fun _ => 30
  capacity := fun _ => 50
  roomCompat := fun _ _ => 1
  profAssign := fun _ _ => 1
  profAvail := fun _ _ _ => 1
  periodPref := fun _ _ _ => 1

/-- The schedule placing the single course in the single room and period. -/
def exSchedule : Fin 1 → Fin 1 → Fin 1 → Fin 1 → ℕ :=
  fun _ _ _ _ => 1

/-- The concrete schedule satisfies every model constraint. -/
lemma accepted_ex : accepted exParams exSchedule := by
  unfold accepted binary_domain one_room_per_period_rule
    one_course_per_room_rule course_sessions_rule room_capacity_rule
    prof_schedule_rule prof_availability_rule compatibility_rule
  decide

end ClassSched

namespace FacilityLoc

/-- The two report shapes the facility-location handler could show. -/
inductive FacilityReport where
  | success
  | failure
  deriving DecidableEq, Repr

/-- The facility-location run-optimization handler (src/facility_location.py,
lines 88-90): after `solve_facility_location()` returns, `st.success` is
called without inspecting the returned results object at all. -/
def facility_report (_results : ClassSched.SolverOutcome) : FacilityReport :=
  FacilityReport.success

end FacilityLoc

namespace ClassSched

/-! ## Helper lemmas on 0/1-valued sums -/

/-- A sum of 0/1-valued terms counts the indices where the value is 1. -/
lemma card_filter_eq_sum_of_le_one {α : Type*} [Fintype α] (f : α → ℕ)
    (h : ∀ a, f a ≤ 1) :
    (Finset.univ.filter fun a => f a = 1).card = ∑ a : α, f a := by
  rw [Finset.card_filter]
  refine Finset.sum_congr rfl fun a _ => ?_
  have ha := h a
  by_cases hfa : f a = 1
  · simp [hfa]
  · have hz : f a = 0 := by omega
    simp [hfa, hz]

/-- If a sum of naturals is at most 1, two indices with value 1 coincide. -/
lemma eq_of_sum_le_one {α : Type*} [Fintype α] [DecidableEq α] (f : α → ℕ)
    (hsum : (∑ a : α, f a) ≤ 1) {a b : α} (ha : f a = 1) (hb : f b = 1) :
    a = b := by
  by_contra hne
  have hle : (∑ q ∈ ({a, b} : Finset α), f q) ≤ ∑ q : α, f q :=
    Finset.sum_le_sum_of_subset (Finset.subset_univ _)
  rw [Finset.sum_pair hne] at hle
  omega

end ClassSched

namespace ClassSched

/-! ## Claim theorems -/

/-- C1: in every accepted solution, for every course `c` the number of
(classroom, day, time-slot) triples at which the decision variable for `c`
equals 1 is exactly `c`'s required session count — an equality, not a bound
in either direction. -/
theorem spec_C1 {C R D T P : Type*} [Fintype C] [Fintype R] [Fintype D]
    [Fintype T] [Fintype P] (ps : Params C R D T P)
    (x : C → R → D → T → ℕ) (hacc : accepted ps x) (c : C) :
    (scheduled_triples x c).card = ps.courseSessions c := by
  obtain ⟨hbin, -, -, hcs, -⟩ := hacc
  have hone : ∀ q : R × D × T, x c q.1 q.2.1 q.2.2 ≤ 1 :=
    fun q => hbin c _ _ _
  rw [scheduled_triples, card_filter_eq_sum_of_le_one _ hone]
  have hc := hcs c
  rw [course_sessions_rule] at hc
  rw [← hc]
  simp [Fintype.sum_prod_type]

/-- Witness for C1 at the concrete one-of-everything instance. -/
theorem spec_C1_witness :
    accepted exParams exSchedule ∧
      (scheduled_triples exSchedule 0).card = exParams.courseSessions 0 :=
  ⟨accepted_ex, spec_C1 exParams exSchedule accepted_ex 0⟩

/-- C2: in every accepted solution, a course sits in at most one room per
(day, slot) and a room hosts at most one course per (day, slot): two rooms
both holding course `c` at the same period coincide, and two courses both
held in room `r` at the same period coincide. -/
theorem spec_C2 {C R D T P : Type*} [Fintype C] [Fintype R] [Fintype D]
    [Fintype T] [Fintype P] [DecidableEq C] [DecidableEq R]
    (ps : Params C R D T P) (x : C → R → D → T → ℕ)
    (hacc : accepted ps x) :
    (∀ (c : C) (d : D) (t : T) (r₁ r₂ : R),
        x c r₁ d t = 1 → x c r₂ d t = 1 → r₁ = r₂) ∧
    (∀ (r : R) (d : D) (t : T) (c₁ c₂ : C),
        x c₁ r d t = 1 → x c₂ r d t = 1 → c₁ = c₂) := by
  obtain ⟨-, hroom, hcourse, -⟩ := hacc
  constructor
  · intro c d t r₁ r₂ h1 h2
    exact eq_of_sum_le_one (fun r => x c r d t) (hroom c d t) h1 h2
  · intro r d t c₁ c₂ h1 h2
    exact eq_of_sum_le_one (fun c => x c r d t) (hcourse r d t) h1 h2

/-- Witness for C2 at the concrete one-of-everything instance. -/
theorem spec_C2_witness :
    accepted exParams exSchedule ∧
      exSchedule 0 0 0 0 = 1 ∧ (0 : Fin 1) = 0 :=
  ⟨accepted_ex, rfl,
    (spec_C2 exParams exSchedule accepted_ex).1 0 0 0 0 0 rfl rfl⟩

/-- C3: room compatibility is computed from the 0-100 specialization
control in exactly three tiers: at most 20, every pair is compatible;
between 21 and 60, a pair is compatible exactly when the course needs the
standard type (0), the room is of the standard type, or the two types are
equal; above 60, exactly when the two types are equal.  The value is always
0 or 1. -/
theorem spec_C3 :
    (∀ lvl ct rt : ℕ, lvl ≤ 20 → room_compat_value lvl ct rt = 1) ∧
    (∀ lvl ct rt : ℕ, 21 ≤ lvl → lvl ≤ 60 →
        (room_compat_value lvl ct rt = 1 ↔ (ct = 0 ∨ rt = 0 ∨ ct = rt))) ∧
    (∀ lvl ct rt : ℕ, 60 < lvl →
        (room_compat_value lvl ct rt = 1 ↔ ct = rt)) ∧
    (∀ lvl ct rt : ℕ,
        room_compat_value lvl ct rt = 0 ∨ room_compat_value lvl ct rt = 1) := by
  refine ⟨?_, ?_, ?_, ?_⟩
  · intro lvl ct rt h
    simp [room_compat_value, h]
  · intro lvl ct rt h21 h60
    have h20 : ¬ lvl ≤ 20 := by omega
    by_cases hc : ct = 0 ∨ rt = 0 ∨ ct = rt <;>
      simp [room_compat_value, h20, h60, hc]
  · intro lvl ct rt h
    have h20 : ¬ lvl ≤ 20 := by omega
    have h60 : ¬ lvl ≤ 60 := by omega
    by_cases hc : ct = rt <;> simp [room_compat_value, h20, h60, hc]
  · intro lvl ct rt
    unfold room_compat_value
    split
    · right; rfl
    · split <;> split
      · right; rfl
      · left; rfl
      · right; rfl
      · left; rfl

/-- Witness for C3: one concrete input in each tier. -/
theorem spec_C3_witness :
    room_compat_value 10 1 2 = 1 ∧
      (room_compat_value 40 1 2 = 1 ↔ ((1 : ℕ) = 0 ∨ (2 : ℕ) = 0 ∨ (1 : ℕ) = 2)) ∧
      (room_compat_value 70 2 2 = 1 ↔ (2 : ℕ) = 2) :=
  ⟨spec_C3.1 10 1 2 (by decide),
    spec_C3.2.1 40 1 2 (by decide) (by decide),
    spec_C3.2.2.1 70 2 2 (by decide)⟩

/-- C4: in every accepted solution, a course taught by professor `p` has no
1-valued entry at a period where `p` is unavailable, and `p` teaches at most
one of the assigned courses at any single period; moreover, for a
(professor, course) pair with no assignment relation the availability
constraint is vacuous — it holds for every decision grid whatsoever. -/
theorem spec_C4 {C R D T P : Type*} [Fintype C] [Fintype R] [Fintype D]
    [Fintype T] [Fintype P] [DecidableEq C] [DecidableEq R]
    (ps : Params C R D T P) (x : C → R → D → T → ℕ)
    (hacc : accepted ps x) :
    (∀ (p : P) (c : C) (d : D) (t : T),
        ps.profAssign p c = 1 → ps.profAvail p d t = 0 →
        ∀ r : R, x c r d t = 0) ∧
    (∀ (p : P) (d : D) (t : T) (c₁ c₂ : C) (r₁ r₂ : R),
        ps.profAssign p c₁ = 1 → ps.profAssign p c₂ = 1 →
        x c₁ r₁ d t = 1 → x c₂ r₂ d t = 1 → c₁ = c₂) ∧
    (∀ (y : C → R → D → T → ℕ) (p : P) (c : C) (d : D) (t : T),
        ps.profAssign p c = 0 → prof_availability_rule ps y p c d t) := by
  obtain ⟨-, -, -, -, -, hps, hpa, -⟩ := hacc
  refine ⟨?_, ?_, ?_⟩
  · intro p c d t hassign havail r
    have h := hpa p c d t
    rw [prof_availability_rule, if_pos hassign, havail] at h
    have hsingle : x c r d t ≤ ∑ r' : R, x c r' d t :=
      Finset.single_le_sum (f := fun r' => x c r' d t)
        (fun i _ => Nat.zero_le _) (Finset.mem_univ r)
    omega
  · intro p d t c₁ c₂ r₁ r₂ ha1 ha2 h1 h2
    have hsum : (∑ q : C × R, ps.profAssign p q.1 * x q.1 q.2 d t) ≤ 1 := by
      rw [Fintype.sum_prod_type]
      exact hps p d t
    have hq1 : ps.profAssign p (c₁, r₁).1 * x (c₁, r₁).1 (c₁, r₁).2 d t = 1 := by
      simp [ha1, h1]
    have hq2 : ps.profAssign p (c₂, r₂).1 * x (c₂, r₂).1 (c₂, r₂).2 d t = 1 := by
      simp [ha2, h2]
    have := eq_of_sum_le_one
      (fun q : C × R => ps.profAssign p q.1 * x q.1 q.2 d t) hsum hq1 hq2
    exact congrArg Prod.fst this
  · intro y p c d t hassign
    rw [prof_availability_rule, if_neg (by omega)]
    trivial

/-- Witness for C4 at the concrete one-of-everything instance. -/
theorem spec_C4_witness :
    accepted exParams exSchedule ∧
      exParams.profAssign 0 0 = 1 ∧ (0 : Fin 1) = 0 :=
  ⟨accepted_ex, rfl,
    (spec_C4 exParams exSchedule accepted_ex).2.1 0 0 0 0 0 0 0
      rfl rfl rfl rfl⟩

/-- C5: the objective's third additive term awards 100 per course whose
scheduled count reaches its requirement, so on every accepted solution —
where the session constraint forces equality — it equals 100 times the
number of courses, and the whole objective is the two preference terms plus
that flat bonus. -/
theorem spec_C5 {C R D T P : Type*} [Fintype C] [Fintype R] [Fintype D]
    [Fintype T] [Fintype P] (ps : Params C R D T P)
    (x : C → R → D → T → ℕ) (hacc : accepted ps x) :
    sessions_met_score ps x = 100 * Fintype.card C ∧
    objective_rule ps x =
      preferred_periods_score ps x + room_compatibility_score ps x +
        100 * Fintype.card C := by
  have hall : ∀ c, ps.courseSessions c ≤ sessions_scheduled x c := by
    intro c
    have hc := hacc.2.2.2.1 c
    rw [course_sessions_rule] at hc
    exact hc.ge
  have hmet : sessions_met_score ps x = 100 * Fintype.card C := by
    rw [sessions_met_score]
    calc (∑ c : C, if ps.courseSessions c ≤ sessions_scheduled x c
            then 100 else 0)
        = ∑ _c : C, 100 :=
          Finset.sum_congr rfl fun c _ => if_pos (hall c)
      _ = 100 * Fintype.card C := by
          rw [Finset.sum_const, smul_eq_mul, mul_comm, Finset.card_univ]
  exact ⟨hmet, by rw [objective_rule, hmet]⟩

/-- Witness for C5 at the concrete one-of-everything instance. -/
theorem spec_C5_witness :
    accepted exParams exSchedule ∧
      sessions_met_score exParams exSchedule = 100 * Fintype.card (Fin 1) :=
  ⟨accepted_ex, (spec_C5 exParams exSchedule accepted_ex).1⟩

/-- C6 counterexample: the extraction threshold is strict (`> 0.5`,
line 277), so an entry whose solved value equals exactly one half — which
the claim says is emitted — produces no record. -/
theorem spec_C6_counterexample :
    (1 : ℚ) / 2 ≥ (1 : ℚ) / 2 ∧ extract_schedule [halfEntry] = [] := by
  refine ⟨le_refl _, ?_⟩
  simp [extract_schedule, halfEntry]

/-- C6 (amended): a record is emitted for an entry exactly when its solved
value is strictly greater than 0.5; an entry at exactly 0.5 is dropped. -/
theorem spec_C6 :
    ∀ (entries : List SolvedEntry) (e : SolvedEntry),
      e ∈ extract_schedule entries ↔ e ∈ entries ∧ (1 : ℚ) / 2 < e.value := by
  intro entries e
  simp [extract_schedule, List.mem_filter]

/-- C7: when professor resolution returns `p`, then `p` is assigned to the
course and every professor strictly earlier in the iteration order is not —
i.e. the reported professor is the first one for whom the assignment
relation holds. -/
theorem spec_C7 :
    ∀ (professors : List ℕ) (assign : ℕ → ℕ → ℕ) (c p : ℕ),
      find_professor professors assign c = some p →
      assign p c = 1 ∧
        ∃ pre post, professors = pre ++ p :: post ∧
          ∀ q ∈ pre, assign q c ≠ 1 := by
  intro professors assign c
  induction professors with
  | nil =>
    intro p h
    simp [find_professor] at h
  | cons a l ih =>
    intro p h
    rw [find_professor] at h
    by_cases ha : (assign a c == 1) = true
    · rw [List.find?_cons_of_pos (p := fun q => assign q c == 1) l ha] at h
      obtain rfl : a = p := by injection h
      refine ⟨by simpa using ha, [], l, rfl, by simp⟩
    · rw [List.find?_cons_of_neg (p := fun q => assign q c == 1) l ha] at h
      obtain ⟨h1, pre, post, hsplit, hpre⟩ := ih p h
      refine ⟨h1, a :: pre, post, by rw [hsplit]; rfl, ?_⟩
      intro q hq
      rcases List.mem_cons.mp hq with rfl | hq'
      · simpa using ha
      · exact hpre q hq'

/-- Witness for C7: in a two-professor list where only the second is
assigned, resolution skips the first and reports the second. -/
theorem spec_C7_witness :
    (fun p (_ : ℕ) => if p = 1 then 1 else 0) 1 5 = 1 ∧
      ∃ pre post, [0, 1] = pre ++ 1 :: post ∧
        ∀ q ∈ pre, (fun p (_ : ℕ) => if p = 1 then 1 else 0) q 5 ≠ 1 :=
  spec_C7 [0, 1] (fun p _ => if p = 1 then 1 else 0) 5 1 (by decide)

/-- C8: under the adapter's status contract, a time-limit outcome is
reported through the failure branch, never the success branch; an
infeasible outcome likewise yields the failure report (which carries no
records), while a feasible-but-empty extraction yields the distinct
"no schedule" warning report. -/
theorem spec_C8 :
    (∀ entries, run_scheduling SolverOutcome.timeLimit entries =
        ScheduleReport.errorFailed) ∧
    (∀ entries, run_scheduling SolverOutcome.infeasible entries =
        ScheduleReport.errorFailed) ∧
    run_scheduling SolverOutcome.optimal [] = ScheduleReport.warnNoSchedule ∧
    (ScheduleReport.errorFailed == ScheduleReport.warnNoSchedule) = false :=
  ⟨fun _ => rfl, fun _ => rfl, rfl, rfl⟩

/-- C9: with zero emitted records the metric computation takes the warning
branch and produces no metrics at all (so no division is evaluated), and
metrics exist exactly for a nonempty record list. -/
theorem spec_C9 :
    (∀ isPref, compute_metrics isPref [] = none) ∧
    (∀ isPref (records : List SolvedEntry),
        (compute_metrics isPref records).isSome = !records.isEmpty) := by
  constructor
  · intro _
    rfl
  · intro isPref records
    cases records with
    | nil => rfl
    | cons e l => simp [compute_metrics]

end ClassSched

namespace FacilityLoc

/-- C10: the facility-location flow reports success for every solver
outcome — including infeasible and engine-error runs — because the handler
never inspects the returned results. -/
theorem spec_C10 :
    ∀ results, facility_report results = FacilityReport.success :=
  fun _ => rfl

end FacilityLoc
